import Mathlib

/-!
Shallow embedding of the request handlers of webstore/web.py: the data model
(rows, tables, databases), the query-string parsing performed by the read
handler (sort, filter, pagination), and the create / read / update / raw-SQL
handlers.  The relational engine and the wire-format codec are external
collaborators; where a handler delegates to them the embedding takes the
collaborator's outcome as an explicit argument (the engine as a function
parameter, the decoded request body as an `Except` value).
-/

namespace Webstore

/-- A row is an ordered mapping from column name to scalar value
(Python dict of strings in the handlers). -/
abbrev Row := List (String × String)

/-- One named table inside a database: its current column set and its rows. -/
structure TableData where
  columns : List String
  rows : List Row
deriving DecidableEq

/-- A database maps table names to table data (`table in db` / `db[table]`). -/
abbrev DB := List (String × TableData)

/-- The two SQLAlchemy ordering constructors `asc` and `desc` referenced by
the handler's direction dictionary. -/
inductive SortDir where
  | ascDir : SortDir
  | descDir : SortDir
deriving DecidableEq

/-- Outcome of a handler: a rendered status envelope (code, message, state,
optional url) from `render_message`, a rendered result set from
`render_table`, or an unhandled Python exception (an HTTP 500 fault). -/
inductive Response where
  | message : Nat → String → String → Option String → Response
  | table : List Row → Response
  | fault : String → Response
deriving DecidableEq

/-- The SELECT statement the read handler builds:
`_table.table.select(clause, limit=..., offset=..., order_by=sorts)`. -/
structure SelectStmt where
  whereClause : List (String × String)
  limit : Option Int
  offset : Option Int
  order_by : List (SortDir × String)
deriving DecidableEq

/-- The query-string inputs consumed by the read handler: the first `_limit`
value, the first `_offset` value, every `_sort` value in order, and the
remaining key/value parameters (the filter arguments). -/
structure ReadRequest where
  limit : Option String
  offset : Option String
  sorts : List String
  filters : List (String × String)

/-- What a read produced: the response, and the list of statements that were
actually sent to the engine (empty when the handler bailed out first). -/
structure ReadResult where
  response : Response
  executed : List SelectStmt
deriving DecidableEq

/-- Lower-case one character, as Python `str.lower` does for ASCII. -/
def lowerChar (c : Char) : Char :=
  if 'A' ≤ c ∧ c ≤ 'Z' then Char.ofNat (c.toNat + 32) else c

/-- Lower-case a string, as Python `str.lower` does for ASCII. -/
def lowerStr (s : String) : String :=
  String.mk (s.data.map lowerChar)

/-- Python `':' in sort`: does the string contain a colon? -/
def hasColon (s : String) : Bool :=
  s.data.contains ':'

/-- Split a character list at the first colon, dropping the colon. -/
def splitAtColon : List Char → List Char × List Char
  | [] => ([], [])
  | c :: rest =>
    if c = ':' then ([], rest)
    else
      let p := splitAtColon rest
      (c :: p.fst, p.snd)

/-- Python `sort.split(':', 1)`: the text before the first colon and the
text after it. -/
def splitOrder (s : String) : String × String :=
  let p := splitAtColon s.data
  (String.mk p.fst, String.mk p.snd)

/-- The direction dictionary lookup
`{'asc': asc, 'desc': desc}.get(order.lower(), 'asc')`.  On a recognized
token it yields one of the two ordering constructors; on anything else it
yields the dictionary's default, which in the source is the *string*
`'asc'`, not the constructor `asc`. -/
def dirLookup (o : String) : Sum SortDir String :=
  if lowerStr o = "asc" then Sum.inl SortDir.ascDir
  else if lowerStr o = "desc" then Sum.inl SortDir.descDir
  else Sum.inr "asc"

/-- The message of the invalid-sort envelope rendered by the read handler. -/
def invalidSortMsg : String := "Invalid sorting format, use: order:column"

/-- The unhandled exception raised when the handler calls the string
`'asc'` as a function in `sorts.append(order(column))`. -/
def typeErrorMsg : String := "TypeError: \x27str\x27 object is not callable"

/-- The read handler's `_sort` loop: for each value, reject with the 400
envelope when no colon is present; otherwise split at the first colon, look
the direction token up, and append `order(column)` — which raises a
`TypeError` when the lookup fell back to the string default. -/
def parseSorts : List String → Except Response (List (SortDir × String))
  | [] => Except.ok []
  | s :: rest =>
    if hasColon s then
      match dirLookup (splitOrder s).fst with
      | Sum.inl d =>
        Except.map (fun l => (d, (splitOrder s).snd) :: l) (parseSorts rest)
      | Sum.inr _ => Except.error (Response.fault typeErrorMsg)
    else Except.error (Response.message 400 invalidSortMsg "error" none)

/-- Modelled from the spec: the query clause builder (`args_to_clause` of the
table-handle module, absent from the sources).  Each remaining query key
becomes an equality predicate and a key naming a column absent from the
table's current schema raises `KeyError(column)`. -/
def args_to_clause (columns : List String)
    : List (String × String) → Except String (List (String × String))
  | [] => Except.ok []
  | (k, v) :: rest =>
    if columns.contains k then
      Except.map (fun l => (k, v) :: l) (args_to_clause columns rest)
    else Except.error k

/-- Whitespace in the sense of Python `int()` argument stripping. -/
def isSpaceChar (c : Char) : Bool :=
  c = ' ' ∨ c = '\t' ∨ c = '\n' ∨ c = '\r'

/-- Strip leading and trailing whitespace from a character list. -/
def trimChars (l : List Char) : List Char :=
  ((l.dropWhile isSpaceChar).reverse.dropWhile isSpaceChar).reverse

/-- Split an optional leading sign off a numeral. -/
def splitSign : List Char → Int × List Char
  | '-' :: rest => (-1, rest)
  | '+' :: rest => (1, rest)
  | l => (1, l)

/-- Decimal value of a digit list. -/
def natOfDigits (l : List Char) : Nat :=
  l.foldl (fun a c => a * 10 + (c.toNat - 48)) 0

/-- Python 2 `int(s)` on a string: strip whitespace, allow one sign, then
require at least one digit and nothing but digits; `none` models the
`ValueError` raised otherwise. -/
def pyInt (s : String) : Option Int :=
  let p := splitSign (trimChars s.data)
  if !p.snd.isEmpty && p.snd.all Char.isDigit then
    some (p.fst * (natOfDigits p.snd : Int))
  else none

/-- The handler expression `int(v) if v else None` for `_limit`/`_offset`:
an absent parameter and an empty (falsy) string both give no bound; a
non-empty string must parse as an integer, and the `ValueError` raised on
failure carries the offending literal. -/
def parsePage : Option String → Except String (Option Int)
  | none => Except.ok none
  | some s =>
    if s = "" then Except.ok none
    else
      match pyInt s with
      | some n => Except.ok (some n)
      | none => Except.error s

/-- Both pagination conversions as they are evaluated in the `select` call:
`_limit` first, then `_offset`; the first `ValueError` wins. -/
def buildPagination (limit offset : Option String)
    : Except String (Option Int × Option Int) :=
  match parsePage limit with
  | Except.error v => Except.error v
  | Except.ok l =>
    match parsePage offset with
    | Except.error v => Except.error v
    | Except.ok o => Except.ok (l, o)

/-- The message of the pagination 400 envelope, embedding Python 2's
`ValueError` text for `int()` which quotes the offending literal. -/
def invalidValueMsg (v : String) : String :=
  "Invalid value: invalid literal for int() with base 10: \x27" ++ v ++ "\x27"

/-- Python 2 `str(KeyError(k))`, which quotes the missing key. -/
def keyErrorStr (k : String) : String := "\x27" ++ k ++ "\x27"

/-- The read handler (`GET /db/<database>/<table>`): locate the table or
render 404; parse every `_sort` value; build the filter clause from the
remaining parameters, rendering 400 on a `KeyError`; convert `_limit` and
`_offset`, rendering 400 on a `ValueError`; execute the statement through
the engine, rendering 400 on an `OperationalError`; otherwise render the
result set. -/
def read (db : DB) (table : String) (req : ReadRequest)
    (engine : SelectStmt → Except String (List Row)) : ReadResult :=
  match List.lookup table db with
  | none => ⟨Response.message 404 ("No such table: " ++ table) "error" none, []⟩
  | some t =>
    match parseSorts req.sorts with
    | Except.error r => ⟨r, []⟩
    | Except.ok sorts =>
      match args_to_clause t.columns req.filters with
      | Except.error k =>
        ⟨Response.message 400 ("Invalid filter: " ++ keyErrorStr k) "error" none, []⟩
      | Except.ok clause =>
        match buildPagination req.limit req.offset with
        | Except.error v =>
          ⟨Response.message 400 (invalidValueMsg v) "error" none, []⟩
        | Except.ok lo =>
          let stmt : SelectStmt := ⟨clause, lo.fst, lo.snd, sorts⟩
          match engine stmt with
          | Except.error oe =>
            ⟨Response.message 400 ("Invalid query: " ++ oe) "error" none, [stmt]⟩
          | Except.ok rows => ⟨Response.table rows, [stmt]⟩

/-- The URL rendered by `url_for('read', database=..., table=...)`. -/
def url_for_read (database table : String) : String :=
  "/db/" ++ database ++ "/" ++ table

/-- A table handle freshly obtained for a not-yet-existing table. -/
def emptyTable : TableData := TableData.mk [] []

/-- Extend the column set with every new column of a row, in encounter
order. -/
def widenColumns (cols : List String) (row : Row) : List String :=
  row.foldl (fun cs kv => if cs.contains kv.fst then cs else cs ++ [kv.fst]) cols

/-- Modelled from the spec: `add_row` of the table-handle module (absent from
the sources) inserts one row, first widening the schema with any columns the
row introduces. -/
def add_row (t : TableData) (row : Row) : TableData :=
  TableData.mk (widenColumns t.columns row) (t.rows ++ [row])

/-- The create handler's insertion loop: every decoded row with at least one
field is added; rows with no fields are skipped. -/
def insertRows (t : TableData) (rows : List Row) : TableData :=
  rows.foldl (fun acc row => if row.isEmpty then acc else add_row acc row) t

/-- Outcome of a write handler: the response, the database afterwards, and
how many times the handler committed. -/
structure WriteResult where
  response : Response
  db : DB
  commits : Nat
deriving DecidableEq

/-- The named-create handler (`POST /db/<database>/<table>`): render the 409
conflict envelope (with the existing resource's URL) when the table exists;
otherwise decode the body — a decode failure is rendered as a 400 envelope
(the codec module is absent from the sources; its failure mode is modelled
from the spec as `MalformedInputError`) — insert every non-empty row,
commit once, and render the 201 envelope with the resource URL.  The decoded
body is passed in as an `Except` value standing for the outcome
`read_request` would have produced. -/
def create_named (db : DB) (database table : String)
    (body : Except String (List Row)) : WriteResult :=
  if (List.lookup table db).isSome then
    ⟨Response.message 409 ("Table already exists: " ++ table) "error"
        (some (url_for_read database table)), db, 0⟩
  else
    match body with
    | Except.error err =>
      ⟨Response.message 400 ("Malformed input: " ++ err) "error" none, db, 0⟩
    | Except.ok rows =>
      ⟨Response.message 201 ("Successfully created: " ++ table) "success"
          (some (url_for_read database table)),
        (table, insertRows emptyTable rows) :: db, 1⟩

/-- Field lookup in a row. -/
def rowGet (row : Row) (k : String) : Option String :=
  List.lookup k row

/-- Set one field of a row, replacing an existing binding or appending. -/
def setField : Row → String × String → Row
  | [], kv => [kv]
  | (k, v) :: rest, kv =>
    if k = kv.fst then (k, kv.snd) :: rest else (k, v) :: setField rest kv

/-- Overwrite the fields of an existing row with those of the update row. -/
def mergeRow (existing row : Row) : Row :=
  row.foldl setField existing

/-- Equality of an existing row with the update row on every unique column. -/
def rowMatches (unique : List String) (row existing : Row) : Bool :=
  unique.all (fun c => rowGet existing c == rowGet row c)

/-- Update the first row matching the update row on the unique columns,
returning `none` when no row matches. -/
def updateFirst (unique : List String) (row : Row) : List Row → Option (List Row)
  | [] => none
  | r :: rest =>
    if rowMatches unique row r then some (mergeRow r row :: rest)
    else Option.map (fun l => r :: l) (updateFirst unique row rest)

/-- Modelled from the spec: `update_row` of the table-handle module (absent
from the sources).  With an empty unique-column list it always reports no
match; otherwise it matches existing rows by equality on exactly those
columns and, when at least one row matches, updates that row's remaining
fields in place and reports success. -/
def update_row (unique : List String) (t : TableData) (row : Row)
    : Option TableData :=
  if unique.isEmpty then none
  else
    match updateFirst unique row t.rows with
    | none => none
    | some rows2 => some (TableData.mk (widenColumns t.columns row) rows2)

/-- One iteration of the update handler's loop: skip a row with no fields;
otherwise offer the row to `update_row` and fall back to `add_row` when it
reports no match. -/
def upsertStep (unique : List String) (acc : TableData) (row : Row) : TableData :=
  if row.isEmpty then acc
  else
    match update_row unique acc row with
    | some t2 => t2
    | none => add_row acc row

/-- Replace one table's data inside a database. -/
def dbReplace (db : DB) (table : String) (t : TableData) : DB :=
  db.map (fun kv => if kv.fst = table then (table, t) else kv)

/-- The update handler (`PUT /db/<database>/<table>`): render 404 when the
table is absent; decode the body (failure rendered as a 400 envelope,
modelled from the spec as for create); run the upsert loop over the decoded
rows with the request's `unique` column list; commit once; render the 201
envelope with the resource URL. -/
def update (db : DB) (database table : String) (unique : List String)
    (body : Except String (List Row)) : WriteResult :=
  match List.lookup table db with
  | none => ⟨Response.message 404 ("No such table: " ++ table) "error" none, db, 0⟩
  | some t =>
    match body with
    | Except.error err =>
      ⟨Response.message 400 ("Malformed input: " ++ err) "error" none, db, 0⟩
    | Except.ok rows =>
      ⟨Response.message 201 ("Table updated: " ++ table) "success"
          (some (url_for_read database table)),
        dbReplace db table (rows.foldl (upsertStep unique) t), 1⟩

/-- Outcome of the raw-SQL handler: the response, which databases were
resolved through the factory, and which statements were executed. -/
structure SqlResult where
  response : Response
  resolved : List String
  executed : List String
deriving DecidableEq

/-- The raw-SQL handler (`PUT /db/<database>`): any content type other than
`text/sql` is rejected with the 400 envelope before the database is resolved
and before anything executes; otherwise the body is executed verbatim
against the resolved database and the engine's result set is rendered. -/
def sql (database content_type body : String)
    (engine : String → String → List Row) : SqlResult :=
  if content_type ≠ "text/sql" then
    ⟨Response.message 400 "Only text/sql content is supported" "error" none, [], []⟩
  else ⟨Response.table (engine database body), [database], [body]⟩

/-- A sort value whose direction token (the text before the first colon) the
handler's direction dictionary recognizes case-insensitively. -/
abbrev recognizedDir (s : String) : Prop :=
  lowerStr (splitOrder s).fst = "asc" ∨ lowerStr (splitOrder s).fst = "desc"

theorem dirLookup_inl_of_recognized (s : String) (h : recognizedDir s) :
    ∃ d, dirLookup (splitOrder s).fst = Sum.inl d := by
  rcases h with h | h
  · exact ⟨SortDir.ascDir, by simp [dirLookup, h]⟩
  · exact ⟨SortDir.descDir, by simp [dirLookup, h]⟩

theorem parseSorts_ok_of_valid :
    ∀ sorts : List String, (∀ s ∈ sorts, hasColon s = true ∧ recognizedDir s) →
      ∃ l, parseSorts sorts = Except.ok l
  | [], _ => ⟨[], rfl⟩
  | s :: rest, h => by
    obtain ⟨hc, hd⟩ := h s (List.mem_cons_self s rest)
    obtain ⟨d, hdl⟩ := dirLookup_inl_of_recognized s hd
    obtain ⟨l, hl⟩ :=
      parseSorts_ok_of_valid rest (fun x hx => h x (List.mem_cons_of_mem s hx))
    exact ⟨(d, (splitOrder s).snd) :: l, by simp [parseSorts, hc, hdl, hl, Except.map]⟩

theorem parseSorts_missing_colon :
    ∀ (pre : List String) (bad : String) (rest : List String),
      (∀ s ∈ pre, hasColon s = true → recognizedDir s) → hasColon bad = false →
      parseSorts (pre ++ bad :: rest) =
        Except.error (Response.message 400 invalidSortMsg "error" none)
  | [], bad, rest, _, hbad => by simp [parseSorts, hbad]
  | s :: pre, bad, rest, hpre, hbad => by
    by_cases hc : hasColon s = true
    · obtain ⟨d, hdl⟩ :=
        dirLookup_inl_of_recognized s (hpre s (List.mem_cons_self s pre) hc)
      have ih := parseSorts_missing_colon pre bad rest
        (fun x hx => hpre x (List.mem_cons_of_mem s hx)) hbad
      simp [parseSorts, hc, hdl, ih, Except.map]
    · have hc2 : hasColon s = false := by simpa using hc
      simp [parseSorts, hc2]

theorem insertRows_cons (t : TableData) (r : Row) (rows : List Row) :
    insertRows t (r :: rows) = insertRows (if r.isEmpty then t else add_row t r) rows := rfl

theorem insertRows_rows :
    ∀ (rows : List Row) (t : TableData),
      (insertRows t rows).rows = t.rows ++ List.filter (fun r => !r.isEmpty) rows
  | [], t => by simp [insertRows]
  | r :: rows, t => by
    rw [insertRows_cons]
    by_cases hr : r.isEmpty = true
    · rw [if_pos hr, insertRows_rows rows t, List.filter_cons]
      simp [hr]
    · have hr2 : r.isEmpty = false := by simpa using hr
      rw [if_neg hr, insertRows_rows rows (add_row t r), List.filter_cons]
      simp [add_row, hr2, List.append_assoc]

theorem upsertStep_nil (acc : TableData) (row : Row) :
    upsertStep [] acc row = if row.isEmpty then acc else add_row acc row := by
  by_cases hr : row.isEmpty = true <;> simp [upsertStep, update_row, hr]

theorem foldl_upsertStep_nil (rows : List Row) (t : TableData) :
    rows.foldl (upsertStep []) t = insertRows t rows := by
  have h : upsertStep ([] : List String) =
      fun acc row => if row.isEmpty then acc else add_row acc row :=
    funext fun acc => funext fun row => upsertStep_nil acc row
  rw [insertRows, h]

theorem parsePage_error_of (v : String) (hne : v ≠ "") (hp : pyInt v = none) :
    parsePage (some v) = Except.error v := by
  simp [parsePage, hne, hp]

theorem parsePage_empty : parsePage (some "") = parsePage none := rfl

theorem buildPagination_error_limit (limit offset : Option String) (v : String)
    (h : parsePage limit = Except.error v) :
    buildPagination limit offset = Except.error v := by
  simp [buildPagination, h]

theorem buildPagination_error_offset (limit offset : Option String) (v : String)
    (l : Option Int) (hl : parsePage limit = Except.ok l)
    (h : parsePage offset = Except.error v) :
    buildPagination limit offset = Except.error v := by
  simp [buildPagination, hl, h]

theorem buildPagination_empty (l o : Option String) :
    buildPagination (some "") o = buildPagination none o ∧
    buildPagination l (some "") = buildPagination l none := by
  constructor
  · simp only [buildPagination, parsePage_empty]
  · simp only [buildPagination, parsePage_empty]

theorem read_congr_pagination (db : DB) (table : String) (r1 r2 : ReadRequest)
    (engine : SelectStmt → Except String (List Row))
    (hs : r1.sorts = r2.sorts) (hf : r1.filters = r2.filters)
    (hp : buildPagination r1.limit r1.offset = buildPagination r2.limit r2.offset) :
    read db table r1 engine = read db table r2 engine := by
  unfold read
  rw [hs, hf, hp]


/-- Claim C1: the spec says a `_sort` value containing the separator but an
unrecognized direction token defaults to ascending and the read renders the
result set normally.  On the code the direction dictionary's default is the
string literal rather than the ascending constructor, so the handler calls a
string as a function: an unhandled TypeError, no statement executed, no
envelope rendered. -/
theorem c1_unrecognized_direction_faults :
    read [("t", TableData.mk ["col"] [])] "t"
        (ReadRequest.mk none none ["sideways:col"] []) (fun _ => Except.ok []) =
      ⟨Response.fault typeErrorMsg, []⟩ := by decide

/-- Claim C2, counterexample: `_limit=-1` is present and does not parse as a
non-negative integer, yet the handler renders no 400 envelope; it builds the
statement with limit -1, executes it, and renders the result set. -/
theorem c2_negative_limit_not_rejected :
    read [("t", TableData.mk ["a"] [])] "t"
        (ReadRequest.mk (some "-1") none [] []) (fun _ => Except.ok []) =
      ⟨Response.table [], [SelectStmt.mk [] (some (-1)) none []]⟩ ∧
    (read [("t", TableData.mk ["a"] [])] "t"
        (ReadRequest.mk (some "-1") none [] []) (fun _ => Except.ok [])).response ≠
      Response.message 400 (invalidValueMsg "-1") "error" none := by
  exact ⟨by decide, by decide⟩

/-- Claim C2 as amended: on a read whose earlier stages succeed (table
present, every `_sort` value well-formed with a recognized direction, filter
clause valid), a present `_limit` or `_offset` whose non-empty value does not
parse as an integer — sign allowed, so negative values are accepted rather
than rejected — yields the 400 envelope before any statement executes, and
the envelope's message contains the offending literal. -/
theorem c2_invalid_pagination_400 (db : DB) (table : String) (t : TableData)
    (req : ReadRequest) (engine : SelectStmt → Except String (List Row))
    (v : String) (cl : List (String × String))
    (ht : List.lookup table db = some t)
    (hs : ∀ s ∈ req.sorts, hasColon s = true ∧ recognizedDir s)
    (hf : args_to_clause t.columns req.filters = Except.ok cl)
    (hp : (req.limit = some v ∧ v ≠ "" ∧ pyInt v = none) ∨
          ((∃ l, parsePage req.limit = Except.ok l) ∧
            req.offset = some v ∧ v ≠ "" ∧ pyInt v = none)) :
    read db table req engine =
      ⟨Response.message 400 (invalidValueMsg v) "error" none, []⟩ ∧
    ∃ a b, invalidValueMsg v = a ++ v ++ b := by
  have hb : buildPagination req.limit req.offset = Except.error v := by
    rcases hp with ⟨hl, hne, hpy⟩ | ⟨⟨l, hl⟩, ho, hne, hpy⟩
    · exact buildPagination_error_limit _ _ _
        (by rw [hl]; exact parsePage_error_of v hne hpy)
    · exact buildPagination_error_offset _ _ _ l hl
        (by rw [ho]; exact parsePage_error_of v hne hpy)
  obtain ⟨sl, hsl⟩ := parseSorts_ok_of_valid req.sorts hs
  refine ⟨?_, "Invalid value: invalid literal for int() with base 10: \x27",
    "\x27", rfl⟩
  simp [read, ht, hsl, hf, hb]

/-- Claim C2 amended, witness: `_limit=BANANA` on an existing table yields
the 400 envelope naming BANANA, with nothing executed. -/
theorem c2_invalid_pagination_400_w :
    List.lookup "t" [("t", TableData.mk ["a"] [])] = some (TableData.mk ["a"] []) ∧
    (read [("t", TableData.mk ["a"] [])] "t"
        (ReadRequest.mk (some "BANANA") none [] []) (fun _ => Except.ok []) =
      ⟨Response.message 400 (invalidValueMsg "BANANA") "error" none, []⟩ ∧
    ∃ a b, invalidValueMsg "BANANA" = a ++ "BANANA" ++ b) :=
  ⟨rfl, c2_invalid_pagination_400 [("t", TableData.mk ["a"] [])] "t"
    (TableData.mk ["a"] []) (ReadRequest.mk (some "BANANA") none [] [])
    (fun _ => Except.ok []) "BANANA" [] rfl (by simp) rfl
    (Or.inl ⟨rfl, by decide, by decide⟩)⟩

/-- Claim C3: a POST create on a table that already exists renders the 409
conflict envelope carrying the existing resource's URL, leaves the database
unchanged, and commits nothing. -/
theorem c3_create_conflict (db : DB) (database table : String)
    (body : Except String (List Row))
    (h : (List.lookup table db).isSome = true) :
    create_named db database table body =
      ⟨Response.message 409 ("Table already exists: " ++ table) "error"
          (some (url_for_read database table)), db, 0⟩ := by
  simp [create_named, h]

/-- Claim C3, witness: creating the existing table `t` again yields 409 with
its URL and the database is returned untouched. -/
theorem c3_create_conflict_w :
    (List.lookup "t" [("t", TableData.mk ["a"] [[("a", "1")]])]).isSome = true ∧
    create_named [("t", TableData.mk ["a"] [[("a", "1")]])] "d" "t"
        (Except.ok [[("a", "2")]]) =
      ⟨Response.message 409 ("Table already exists: " ++ "t") "error"
          (some (url_for_read "d" "t")),
        [("t", TableData.mk ["a"] [[("a", "1")]])], 0⟩ :=
  ⟨rfl, c3_create_conflict [("t", TableData.mk ["a"] [[("a", "1")]])] "d" "t"
    (Except.ok [[("a", "2")]]) rfl⟩

/-- Claim C4: a GET read of a table absent from the resolved database renders
the 404 envelope whatever the query parameters are, and nothing executes. -/
theorem c4_read_missing_table_404 (db : DB) (table : String) (req : ReadRequest)
    (engine : SelectStmt → Except String (List Row))
    (h : List.lookup table db = none) :
    read db table req engine =
      ⟨Response.message 404 ("No such table: " ++ table) "error" none, []⟩ := by
  simp [read, h]

/-- Claim C4, witness: a missing table with an invalid `_limit`, an invalid
`_sort` and a bogus filter still yields the plain 404 envelope. -/
theorem c4_read_missing_table_404_w :
    List.lookup "nope" ([] : DB) = none ∧
    read [] "nope"
        (ReadRequest.mk (some "BANANA") (some "x") ["nocolon"] [("q", "1")])
        (fun _ => Except.ok []) =
      ⟨Response.message 404 ("No such table: " ++ "nope") "error" none, []⟩ :=
  ⟨rfl, c4_read_missing_table_404 [] "nope"
    (ReadRequest.mk (some "BANANA") (some "x") ["nocolon"] [("q", "1")])
    (fun _ => Except.ok []) rfl⟩

/-- Claim C5: the raw-SQL handler executes the body verbatim against the
resolved database and renders the engine's result set exactly when the
content type is text/sql; any other content type is rejected with the 400
envelope before the database is resolved and before anything executes. -/
theorem c5_sql_content_type_gate (database content_type body : String)
    (engine : String → String → List Row) :
    (content_type = "text/sql" →
      sql database content_type body engine =
        ⟨Response.table (engine database body), [database], [body]⟩) ∧
    (content_type ≠ "text/sql" →
      sql database content_type body engine =
        ⟨Response.message 400 "Only text/sql content is supported" "error" none,
          [], []⟩) := by
  constructor
  · intro h; simp [sql, h]
  · intro h; simp [sql, h]

/-- Claim C5, witness: with content type text/sql the statement runs and its
result set is rendered; with application/json the 400 envelope is rendered
and nothing is resolved or executed. -/
theorem c5_sql_content_type_gate_w :
    sql "d" "text/sql" "SELECT 1" (fun _ _ => [[("x", "1")]]) =
      ⟨Response.table [[("x", "1")]], ["d"], ["SELECT 1"]⟩ ∧
    sql "d" "application/json" "SELECT 1" (fun _ _ => [[("x", "1")]]) =
      ⟨Response.message 400 "Only text/sql content is supported" "error" none,
        [], []⟩ :=
  ⟨(c5_sql_content_type_gate "d" "text/sql" "SELECT 1"
      (fun _ _ => [[("x", "1")]])).1 rfl,
    (c5_sql_content_type_gate "d" "application/json" "SELECT 1"
      (fun _ _ => [[("x", "1")]])).2 (by decide)⟩

/-- Claim C6: a successful create of a previously nonexistent table inserts
exactly the decoded body rows that have at least one field, skipping the
empty ones, commits once, and renders the 201 envelope with the resource
URL. -/
theorem c6_create_success (db : DB) (database table : String) (rows : List Row)
    (h : List.lookup table db = none) :
    (create_named db database table (Except.ok rows)).response =
      Response.message 201 ("Successfully created: " ++ table) "success"
        (some (url_for_read database table)) ∧
    (create_named db database table (Except.ok rows)).commits = 1 ∧
    ∃ t, List.lookup table (create_named db database table (Except.ok rows)).db =
        some t ∧ t.rows = List.filter (fun r => !r.isEmpty) rows := by
  have hns : (List.lookup table db).isSome = false := by simp [h]
  refine ⟨?_, ?_, insertRows emptyTable rows, ?_, ?_⟩
  · simp [create_named, hns]
  · simp [create_named, hns]
  · simp [create_named, hns, List.lookup]
  · simpa [emptyTable] using insertRows_rows rows emptyTable

/-- Claim C6, witness: creating table `t` from three decoded rows, one of
them empty, inserts the two non-empty rows, commits once, and yields 201
with the resource URL. -/
theorem c6_create_success_w :
    List.lookup "t" ([] : DB) = none ∧
    ((create_named [] "d" "t" (Except.ok [[("a", "1")], [], [("b", "2")]])).response =
        Response.message 201 ("Successfully created: " ++ "t") "success"
          (some (url_for_read "d" "t")) ∧
      (create_named [] "d" "t" (Except.ok [[("a", "1")], [], [("b", "2")]])).commits = 1 ∧
      ∃ t, List.lookup "t" (create_named [] "d" "t"
            (Except.ok [[("a", "1")], [], [("b", "2")]])).db = some t ∧
          t.rows = List.filter (fun r => !r.isEmpty) [[("a", "1")], [], [("b", "2")]]) :=
  ⟨rfl, c6_create_success [] "d" "t" [[("a", "1")], [], [("b", "2")]] rfl⟩

/-- Claim C7: the update handler offers each non-empty decoded row to
`update_row` with the request's unique columns and appends it through
`add_row` exactly when no row matched; with no unique columns every
non-empty row is appended; it commits once and renders 201 with the resource
URL. -/
theorem c7_update_upsert (db : DB) (database table : String)
    (unique : List String) (t : TableData) (rows : List Row)
    (ht : List.lookup table db = some t) :
    update db database table unique (Except.ok rows) =
      ⟨Response.message 201 ("Table updated: " ++ table) "success"
          (some (url_for_read database table)),
        dbReplace db table (rows.foldl (upsertStep unique) t), 1⟩ ∧
    (∀ (acc : TableData) (row : Row), row.isEmpty = false →
      upsertStep unique acc row =
        (update_row unique acc row).getD (add_row acc row)) ∧
    (unique = [] →
      (rows.foldl (upsertStep unique) t).rows =
        t.rows ++ List.filter (fun r => !r.isEmpty) rows) := by
  refine ⟨by simp [update, ht], ?_, ?_⟩
  · intro acc row hrow
    cases hu : update_row unique acc row <;> simp [upsertStep, hrow, hu]
  · intro hu
    subst hu
    rw [foldl_upsertStep_nil]
    exact insertRows_rows rows t

/-- Claim C7, witness: with no `unique` parameter, updating table `t` with
one non-empty and one empty decoded row appends exactly the non-empty row,
commits once, and yields 201 with the resource URL. -/
theorem c7_update_upsert_w :
    List.lookup "t" [("t", TableData.mk ["a"] [[("a", "0")]])] =
      some (TableData.mk ["a"] [[("a", "0")]]) ∧
    update [("t", TableData.mk ["a"] [[("a", "0")]])] "d" "t" []
        (Except.ok [[("a", "1")], []]) =
      ⟨Response.message 201 ("Table updated: " ++ "t") "success"
          (some (url_for_read "d" "t")),
        dbReplace [("t", TableData.mk ["a"] [[("a", "0")]])] "t"
          (List.foldl (upsertStep []) (TableData.mk ["a"] [[("a", "0")]])
            [[("a", "1")], []]), 1⟩ ∧
    (List.foldl (upsertStep []) (TableData.mk ["a"] [[("a", "0")]])
        [[("a", "1")], []]).rows =
      [[("a", "0")]] ++ List.filter (fun r => !r.isEmpty) [[("a", "1")], []] :=
  ⟨rfl,
    (c7_update_upsert [("t", TableData.mk ["a"] [[("a", "0")]])] "d" "t" []
      (TableData.mk ["a"] [[("a", "0")]]) [[("a", "1")], []] rfl).1,
    (c7_update_upsert [("t", TableData.mk ["a"] [[("a", "0")]])] "d" "t" []
      (TableData.mk ["a"] [[("a", "0")]]) [[("a", "1")], []] rfl).2.2 rfl⟩

/-- Claim C8, counterexample: with `_sort=sideways:col&_sort=nocolon` on an
existing table the handler raises the unrecognized-direction TypeError on
the earlier value and never renders the invalid-sorting-format 400
envelope, although a separator-less `_sort` value is present in the
request. -/
theorem c8_earlier_bad_direction_preempts :
    read [("s8", TableData.mk ["col"] [])] "s8"
        (ReadRequest.mk none none ["sideways:col", "nocolon"] [])
        (fun _ => Except.ok []) =
      ⟨Response.fault typeErrorMsg, []⟩ ∧
    (read [("s8", TableData.mk ["col"] [])] "s8"
        (ReadRequest.mk none none ["sideways:col", "nocolon"] [])
        (fun _ => Except.ok [])).response ≠
      Response.message 400 invalidSortMsg "error" none := by
  exact ⟨by decide, by decide⟩

/-- Claim C8 as amended: a `_sort` value without the colon separator —
provided no earlier `_sort` value carries the separator with an
unrecognized direction token, which would raise the unhandled TypeError of
the sort-direction bug first — yields the invalid-sorting-format 400
envelope whatever the filter parameters and pagination values are, with
nothing executed. -/
theorem c8_sort_missing_colon_400 (db : DB) (table : String) (t : TableData)
    (limit offset : Option String) (pre : List String) (bad : String)
    (rest : List String) (filters : List (String × String))
    (engine : SelectStmt → Except String (List Row))
    (ht : List.lookup table db = some t)
    (hpre : ∀ s ∈ pre, hasColon s = true → recognizedDir s)
    (hbad : hasColon bad = false) :
    read db table (ReadRequest.mk limit offset (pre ++ bad :: rest) filters)
        engine =
      ⟨Response.message 400 invalidSortMsg "error" none, []⟩ := by
  have hp := parseSorts_missing_colon pre bad rest hpre hbad
  simp [read, ht, hp]

/-- Claim C8, witness: `_sort=DESC:col&_sort=nocolon` with an invalid filter
and an invalid `_limit` still yields the invalid-sorting-format 400 envelope
with nothing executed. -/
theorem c8_sort_missing_colon_400_w :
    List.lookup "t" [("t", TableData.mk ["col"] [])] =
      some (TableData.mk ["col"] []) ∧
    hasColon "nocolon" = false ∧
    read [("t", TableData.mk ["col"] [])] "t"
        (ReadRequest.mk (some "BANANA") none (["DESC:col"] ++ "nocolon" :: ["asc:col"])
          [("zzz", "1")]) (fun _ => Except.ok []) =
      ⟨Response.message 400 invalidSortMsg "error" none, []⟩ :=
  ⟨rfl, by decide,
    c8_sort_missing_colon_400 [("t", TableData.mk ["col"] [])] "t"
      (TableData.mk ["col"] []) (some "BANANA") none ["DESC:col"] "nocolon"
      ["asc:col"] [("zzz", "1")] (fun _ => Except.ok []) rfl (by decide)
      (by decide)⟩

/-- Claim C9: when the target table already exists, the create handler's
outcome is the 409 envelope independently of the request body — an
unparseable body included — with no write and no commit; the body is never
decoded. -/
theorem c9_conflict_ignores_body (db : DB) (database table : String)
    (b1 b2 : Except String (List Row))
    (h : (List.lookup table db).isSome = true) :
    create_named db database table b1 = create_named db database table b2 ∧
    (create_named db database table b1).response =
      Response.message 409 ("Table already exists: " ++ table) "error"
        (some (url_for_read database table)) ∧
    (create_named db database table b1).db = db ∧
    (create_named db database table b1).commits = 0 := by
  simp [create_named, h]

/-- Claim C9, witness: posting an unparseable body at the existing table `t`
yields the same 409 outcome as a well-formed body — not a 400 — and the
database is untouched with no commit. -/
theorem c9_conflict_ignores_body_w :
    (List.lookup "t" [("t", TableData.mk ["a"] [[("a", "1")]])]).isSome = true ∧
    (create_named [("t", TableData.mk ["a"] [[("a", "1")]])] "d" "t"
        (Except.error "malformed body") =
      create_named [("t", TableData.mk ["a"] [[("a", "1")]])] "d" "t"
        (Except.ok [[("b", "2")]]) ∧
    (create_named [("t", TableData.mk ["a"] [[("a", "1")]])] "d" "t"
        (Except.error "malformed body")).response =
      Response.message 409 ("Table already exists: " ++ "t") "error"
        (some (url_for_read "d" "t")) ∧
    (create_named [("t", TableData.mk ["a"] [[("a", "1")]])] "d" "t"
        (Except.error "malformed body")).db =
      [("t", TableData.mk ["a"] [[("a", "1")]])] ∧
    (create_named [("t", TableData.mk ["a"] [[("a", "1")]])] "d" "t"
        (Except.error "malformed body")).commits = 0) :=
  ⟨rfl, c9_conflict_ignores_body [("t", TableData.mk ["a"] [[("a", "1")]])]
    "d" "t" (Except.error "malformed body") (Except.ok [[("b", "2")]]) rfl⟩

/-- Claim C10: an empty-string `_limit` or `_offset` is falsy in the
handler's `int(v) if v else None`, so the read behaves exactly as if the
parameter were absent. -/
theorem c10_empty_pagination_treated_absent (db : DB) (table : String)
    (l o : Option String) (sorts : List String)
    (filters : List (String × String))
    (engine : SelectStmt → Except String (List Row)) :
    read db table (ReadRequest.mk (some "") o sorts filters) engine =
      read db table (ReadRequest.mk none o sorts filters) engine ∧
    read db table (ReadRequest.mk l (some "") sorts filters) engine =
      read db table (ReadRequest.mk l none sorts filters) engine := by
  constructor
  · exact read_congr_pagination _ _ _ _ _ rfl rfl
      (buildPagination_empty (some "") o).1
  · exact read_congr_pagination _ _ _ _ _ rfl rfl
      (buildPagination_empty l (some "")).2

end Webstore
